import Mathlib

/-
  Shallow embedding of FreqShow's application model (model.py).

  The FreqShowModel class holds tuner-configuration state, intensity
  auto-scaling state, and the spectral acquisition pipeline (get_data).
  Python floats are modelled as exact rationals for the configuration
  arithmetic and as real numbers for the intensity/spectral values; the
  RTL-SDR hardware capability is modelled as a register file that echoes
  back the values written to it, with each fallible hardware call taking
  an explicit flag saying whether it raises an IOError on this call.
-/

set_option maxHeartbeats 1000000

namespace FreqShow

/-- Registers of the RTL-SDR device as observable through the rtlsdr
library: the device echoes back the values the setters wrote. -/
structure SdrState where
  center_freq : ℚ
  sample_rate : ℚ
  gain : ℚ
  manual_gain_enabled : Bool

/-- Python exceptions that can cross the boundary of the modelled code. -/
inductive PyError where
  | ioError (detail : String)
  | valueError (msg : String)
  | typeError (msg : String)

/-- The mutable state of a FreqShowModel instance (model.py, __init__). -/
structure Model where
  width : ℕ
  height : ℕ
  min_auto_scale : Bool
  max_auto_scale : Bool
  min_intensity : Option ℝ
  max_intensity : Option ℝ
  range : Option ℝ
  offsetted : Bool
  auto_gain : Bool
  sdr : SdrState

/-- Argument of set_gain: the string AUTO or a numeric gain in dB. -/
inductive GainSetting where
  | auto
  | manual (db : ℚ)

/-- Argument of set_min_intensity / set_max_intensity: the string AUTO
or a numeric intensity in dB. -/
inductive IntensitySetting where
  | auto
  | value (v : ℝ)

/-- Python int() applied to a rational: truncation toward zero
(Int.tdiv of the numerator by the denominator truncates toward zero,
matching CPython's float-to-int conversion). -/
def pyInt (q : ℚ) : ℤ := Int.tdiv q.num q.den

/-- model.py line 54, _clear_intensity: reset each auto-scaled bound to
None and reset the range. -/
def _clear_intensity (m : Model) : Model :=
  let m1 := if m.min_auto_scale then { m with min_intensity := none } else m
  let m2 := if m1.max_auto_scale then { m1 with max_intensity := none } else m1
  { m2 with range := none }

/-- model.py line 47, _initialize_rtlsdr: build a fresh RtlSdr handle and
apply the defaults (145 MHz nominal frequency with the offset disabled,
2.4 MHz sample rate, automatic gain).  The nested setter calls are modelled
as succeeding on the fresh device; the gain register of a fresh device is
modelled as 0 (it is never read by the code before being set).  The lemma
init_rtlsdr_eq_setter_composition below checks this shortcut against the
composition of the three setters exactly as written in the source. -/
def _init_rtlsdr (m : Model) : Model :=
  { m with
    offsetted := false
    auto_gain := true
    sdr := { center_freq := 145 * 1000000, sample_rate := 2400000,
             gain := 0, manual_gain_enabled := false }
    min_intensity := if m.min_auto_scale then none else m.min_intensity
    max_intensity := if m.max_auto_scale then none else m.max_intensity
    range := none }

/-- model.py line 201, report_error: package the failed action and the
error detail as a (summary, detail) pair and reinitialize the hardware. -/
def report_error (m : Model) (action : String) (detail : String) :
    (String × String) × Model :=
  (("Can't " ++ action, detail), _init_rtlsdr m)

/-- model.py line 61, is_offsetted. -/
def is_offsetted (m : Model) : Bool := m.offsetted

/-- model.py line 71, get_offset_mhz. -/
def get_offset_mhz (m : Model) : ℚ := if is_offsetted m then 125 else 0

/-- model.py line 75, get_nominal_center_freq: hardware frequency in Hz
converted to MHz minus the active offset. -/
def get_nominal_center_freq (m : Model) : ℚ :=
  m.sdr.center_freq / 1000000 - get_offset_mhz m

/-- model.py line 79, set_nominal_center_freq.  hwFail says whether the
sdr.set_center_freq call raises IOError (with detail hwDetail). -/
def set_nominal_center_freq (m : Model) (freq_mhz : ℚ)
    (hwFail : Bool) (hwDetail : String) : Option (String × String) × Model :=
  if hwFail then
    let r := report_error m "set center frequency" hwDetail
    (some r.1, r.2)
  else
    let m1 := { m with sdr :=
      { m.sdr with center_freq := (freq_mhz + get_offset_mhz m) * 1000000 } }
    (none, _clear_intensity m1)

/-- model.py line 65, set_offsetted: remember the nominal frequency, flip
the offset flag, re-apply the nominal frequency under the new offset. -/
def set_offsetted (m : Model) (enabled : Bool)
    (hwFail : Bool) (hwDetail : String) : Option (String × String) × Model :=
  let frequency := get_nominal_center_freq m
  set_nominal_center_freq { m with offsetted := enabled } frequency hwFail hwDetail

/-- model.py line 88, get_sample_rate. -/
def get_sample_rate (m : Model) : ℚ := m.sdr.sample_rate / 1000000

/-- The validity test of model.py line 95:
225_001 <= sample_rate <= 300_000 or 900_001 <= sample_rate <= 3_200_000. -/
def validSampleRate (hz : ℤ) : Bool :=
  (225001 ≤ hz && hz ≤ 300000) || (900001 ≤ hz && hz ≤ 3200000)

/-- The (summary, detail) pair returned by the sample-rate validation
failure, model.py line 96. -/
def sampleRateError : String × String :=
  ("Specified sample rate out of range!",
   "Valid sample rates are 0.226 - 0.3 MHz and 0.901 - 3.2 MHz.")

/-- model.py line 92, set_sample_rate: convert MHz to an integer Hz value,
validate it before any hardware interaction, then apply it to the device. -/
def set_sample_rate (m : Model) (sample_rate_mhz : ℚ)
    (hwFail : Bool) (hwDetail : String) : Option (String × String) × Model :=
  let sample_rate := pyInt (sample_rate_mhz * 1000000)
  if validSampleRate sample_rate then
    if hwFail then
      let r := report_error m "set sample rate" hwDetail
      (some r.1, r.2)
    else
      (none, { m with sdr := { m.sdr with sample_rate := (sample_rate : ℚ) } })
  else
    (some sampleRateError, m)

/-- model.py line 112, set_gain: AUTO disables manual gain (an infallible
hardware call) and clears the scaling state; a numeric value records
manual mode, clears the scaling state, and only then attempts the
fallible sdr.set_gain call. -/
def set_gain (m : Model) (gain_db : GainSetting)
    (hwFail : Bool) (hwDetail : String) : Option (String × String) × Model :=
  match gain_db with
  | GainSetting.auto =>
      let m1 := { m with sdr := { m.sdr with manual_gain_enabled := false },
                         auto_gain := true }
      (none, _clear_intensity m1)
  | GainSetting.manual db =>
      let m1 := _clear_intensity { m with auto_gain := false }
      if hwFail then
        let r := report_error m1 "set gain" hwDetail
        (some r.1, r.2)
      else
        (none, { m1 with sdr := { m1.sdr with gain := db } })

/-- model.py line 139, set_min_intensity. -/
def set_min_intensity (m : Model) (intensity : IntensitySetting) : Model :=
  match intensity with
  | IntensitySetting.auto => _clear_intensity { m with min_auto_scale := true }
  | IntensitySetting.value v =>
      _clear_intensity { m with min_auto_scale := false, min_intensity := some v }

/-- model.py line 159, set_max_intensity. -/
def set_max_intensity (m : Model) (intensity : IntensitySetting) : Model :=
  match intensity with
  | IntensitySetting.auto => _clear_intensity { m with max_auto_scale := true }
  | IntensitySetting.value v =>
      _clear_intensity { m with max_auto_scale := false, max_intensity := some v }

/-- The register state of a fresh RtlSdr handle before _initialize_rtlsdr
programs it; every register the code reads is written first. -/
def freshSdr : SdrState :=
  { center_freq := 0, sample_rate := 0, gain := 0, manual_gain_enabled := true }

/-
  The spectral acquisition pipeline of get_data (model.py line 170).
-/

/-- numpy.fft.fft of a sample block x of length N:
output k is the sum over n of x n * exp(-2*pi*i*k*n/N). -/
noncomputable def dft (x : List ℂ) : List ℂ :=
  (List.range x.length).map fun (k : ℕ) =>
    ∑ n ∈ Finset.range x.length,
      x.getD n 0 *
        Complex.exp (-(2 * (Real.pi : ℂ) * Complex.I * (k : ℂ) * (n : ℂ)) / (x.length : ℂ))

/-- numpy.fft.fftshift of a one-dimensional array of length N:
numpy rolls the array right by N/2 positions, which is a left rotation
by N - N/2 positions. -/
def fftshift {α : Type*} (l : List α) : List α :=
  l.rotate (l.length - l.length / 2)

/-- The decibel conversion of model.py line 186: 20.0 * log10 m. -/
noncomputable def toDb (m : ℝ) : ℝ := 20 * Real.logb 10 m

/-- numpy.min over an array: undefined (None) on an empty array, the fold
of min over the elements otherwise. -/
def npMin {α : Type*} [LinearOrder α] : List α → Option α
  | [] => none
  | x :: xs => some (xs.foldl min x)

/-- numpy.max over an array: undefined (None) on an empty array, the fold
of max over the elements otherwise. -/
def npMax {α : Type*} [LinearOrder α] : List α → Option α
  | [] => none
  | x :: xs => some (xs.foldl max x)

/-- The frame computation of get_data, model.py lines 178-186: keep the
first width+2 of the samples read from the device, take the element-wise
absolute value of their FFT, drop the first and last entry, fftshift,
and convert to decibels. -/
noncomputable def computeFrame (width : ℕ) (raw : List ℂ) : List ℝ :=
  ((fftshift ((((dft (raw.take (width + 2))).map Complex.abs).drop 1).dropLast)).map toDb)

/-- model.py lines 188-191: when auto scaling the minimum, fold the
frame minimum into min_intensity; numpy.min raises ValueError on an
empty frame. -/
noncomputable def updateMin (m : Model) (freqs : List ℝ) : Except PyError Model :=
  if m.min_auto_scale then
    match npMin freqs with
    | none => Except.error (PyError.valueError "zero-size array to reduction operation")
    | some mn =>
        let newMin : ℝ :=
          match m.min_intensity with
          | none => mn
          | some p => min mn p
        Except.ok { m with min_intensity := some newMin }
  else Except.ok m

/-- model.py lines 192-195: the symmetric update of max_intensity. -/
noncomputable def updateMax (m : Model) (freqs : List ℝ) : Except PyError Model :=
  if m.max_auto_scale then
    match npMax freqs with
    | none => Except.error (PyError.valueError "zero-size array to reduction operation")
    | some mx =>
        let newMax : ℝ :=
          match m.max_intensity with
          | none => mx
          | some p => max mx p
        Except.ok { m with max_intensity := some newMax }
  else Except.ok m

/-- model.py line 170, get_data.  The read argument is the outcome of
sdr.read_samples: either the block of complex samples the device
delivered or the IOError it raised; the code wraps no try/except around
the read, so an error propagates unchanged.  After the frame is computed
the scaling state is updated; subtracting a missing bound at line 197
would raise TypeError in Python, modelled as an error result. -/
noncomputable def get_data (m : Model) (read : Except PyError (List ℂ)) :
    Except PyError (List ℝ × Model) :=
  match read with
  | Except.error e => Except.error e
  | Except.ok raw =>
    let freqs := computeFrame m.width raw
    match updateMin m freqs with
    | Except.error e => Except.error e
    | Except.ok m1 =>
      match updateMax m1 freqs with
      | Except.error e => Except.error e
      | Except.ok m2 =>
        match m2.max_intensity, m2.min_intensity with
        | some mx, some mn => Except.ok (freqs, { m2 with range := some (mx - mn) })
        | _, _ =>
            Except.error (PyError.typeError "unsupported operand type for NoneType")

/-
  Definitions taken from the words of the specification (C1), to be
  compared with the pipeline above: a circular shift by k positions to
  the right, written as the index permutation sending input position j
  to output position (j + k) mod N, and the frame description of the
  specification built on it with k = floor(N/2).
-/

/-- Circular right shift by k, written as an index permutation: output
position i is input position (i + N - k mod N) mod N, i.e. input
position j lands on output position (j + k) mod N. -/
def rollRight {α : Type*} (k : ℕ) (l : List α) : List α :=
  List.ofFn fun i : Fin l.length =>
    l.get ⟨(i.val + l.length - k % l.length) % l.length,
           Nat.mod_lt _ (Nat.lt_of_le_of_lt (Nat.zero_le _) i.isLt)⟩

/-- The spectral frame as the specification words it: the magnitude
sequence of the FFT of the width+2 retained samples, with its first and
last element dropped, circularly shifted by floor(N/2) positions, and
converted to decibels. -/
noncomputable def specFrame (width : ℕ) (raw : List ℂ) : List ℝ :=
  ((rollRight (((((dft (raw.take (width + 2))).map Complex.abs).drop 1).dropLast).length / 2)
      ((((dft (raw.take (width + 2))).map Complex.abs).drop 1).dropLast)).map toDb)

/-- A concrete model state as produced by __init__ with width 1, height 1
(auto scaling enabled, no bounds observed yet, 145 MHz, 2.4 MHz, auto
gain), used as the concrete input of the witnesses. -/
def modelA : Model :=
  { width := 1, height := 1, min_auto_scale := true, max_auto_scale := true,
    min_intensity := none, max_intensity := none, range := none,
    offsetted := false, auto_gain := true,
    sdr := { center_freq := 145 * 1000000, sample_rate := 2400000, gain := 0,
             manual_gain_enabled := false } }

/-- The state modelA after an acquisition has populated the auto-scaled
bounds (concrete values standing for observed dB bounds). -/
noncomputable def modelB : Model :=
  { modelA with min_intensity := some 5, max_intensity := some 7, range := some 2 }

/-- The frame of the concrete successful acquisition used by the C2
witness: modelA (width 1, auto scaling, no bounds yet) with a
three-sample block. -/
noncomputable def frameA1 : List ℝ :=
  ((get_data modelA (Except.ok [0, 0, 0])).toOption.getD ([], modelA)).1

/-- The model state after the witness acquisition. -/
noncomputable def modelA1 : Model :=
  ((get_data modelA (Except.ok [0, 0, 0])).toOption.getD ([], modelA)).2

/-
  Helper lemmas (shared).
-/

/-- The function _clear_intensity written out on the constructor form of
the state. -/
theorem clear_intensity_fields (w h : ℕ) (mina maxa : Bool) (mi ma rg : Option ℝ)
    (off ag : Bool) (sdr : SdrState) :
    _clear_intensity ⟨w, h, mina, maxa, mi, ma, rg, off, ag, sdr⟩ =
      ⟨w, h, mina, maxa, if mina then none else mi, if maxa then none else ma,
       none, off, ag, sdr⟩ := by
  cases mina <;> cases maxa <;> rfl

/-- The function _init_rtlsdr written out on the constructor form of the
state. -/
theorem init_rtlsdr_fields (w h : ℕ) (mina maxa : Bool) (mi ma rg : Option ℝ)
    (off ag : Bool) (sdr : SdrState) :
    _init_rtlsdr ⟨w, h, mina, maxa, mi, ma, rg, off, ag, sdr⟩ =
      ⟨w, h, mina, maxa, if mina then none else mi, if maxa then none else ma,
       none, false, true, ⟨145 * 1000000, 2400000, 0, false⟩⟩ := rfl

/-- The _init_rtlsdr shortcut agrees with the literal composition of the
three setter calls of model.py lines 47-52 applied to a fresh device:
reset the offset flag, set 145 MHz, set 2.4 MHz, set automatic gain,
each hardware call succeeding on the fresh device. -/
theorem init_rtlsdr_eq_setter_composition (m : Model) :
    _init_rtlsdr m =
      (set_gain
        ((set_sample_rate
          ((set_nominal_center_freq { m with offsetted := false, sdr := freshSdr }
              145 false "").2)
          (24/10) false "").2)
        GainSetting.auto false "").2 := by
  obtain ⟨w, h, mina, maxa, mi, ma, rg, off, ag, sdr⟩ := m
  have h24 : pyInt ((24/10 : ℚ) * 1000000) = 2400000 := by
    unfold pyInt
    norm_num
  have h145 : ((145 : ℚ) + 0) * 1000000 = 145 * 1000000 := by norm_num
  simp only [set_gain, set_sample_rate, set_nominal_center_freq, get_offset_mhz,
    is_offsetted, h24]
  cases mina <;> cases maxa <;>
    simp [_clear_intensity, _init_rtlsdr, validSampleRate, freshSdr, h145]

/-- Evaluation of the MHz-to-Hz conversion at 0.3 MHz. -/
theorem pyInt_03 : pyInt ((3/10 : ℚ) * 1000000) = 300000 := by
  unfold pyInt
  norm_num

/-- Evaluation of the MHz-to-Hz conversion at 0.3000001 MHz: Python int()
truncates 300000.1 down to 300000. -/
theorem pyInt_0300 : pyInt ((3000001/10000000 : ℚ) * 1000000) = 300000 := by
  unfold pyInt
  norm_num
  decide

/-- Evaluation of the MHz-to-Hz conversion at 0.5 MHz. -/
theorem pyInt_half : pyInt ((1/2 : ℚ) * 1000000) = 500000 := by
  unfold pyInt
  norm_num

/-- Evaluation of the MHz-to-Hz conversion at 1 MHz. -/
theorem pyInt_one : pyInt ((1 : ℚ) * 1000000) = 1000000 := by
  unfold pyInt
  norm_num

/-- Evaluation of the MHz-to-Hz conversion at 2.4 MHz. -/
theorem pyInt_24 : pyInt ((24/10 : ℚ) * 1000000) = 2400000 := by
  unfold pyInt
  norm_num

/-- One MHz is a valid sample rate (inside [900001, 3200000]). -/
theorem validSampleRate_one : validSampleRate (pyInt ((1 : ℚ) * 1000000)) = true := by
  rw [pyInt_one]
  decide

/-- Half a MHz is not a valid sample rate (in the gap between the
bands). -/
theorem validSampleRate_half : validSampleRate (pyInt ((1/2 : ℚ) * 1000000)) = false := by
  rw [pyInt_half]
  decide

/-- Reinitialization of the device absorbs a preceding scaling clear and
auto_gain change: report_error from the failing branch of set_gain
resets the same state as reinitializing from the pre-call state. -/
theorem init_rtlsdr_absorbs_clear (m : Model) (b : Bool) :
    _init_rtlsdr (_clear_intensity { m with auto_gain := b }) = _init_rtlsdr m := by
  obtain ⟨w, h, mina, maxa, mi, ma, rg, off, ag, sdr⟩ := m
  cases mina <;> cases maxa <;> rfl

/-
  Claim theorems.
-/

/-- Claim C9: set_min_intensity with a numeric value v sets
min_auto_scale to false and min_intensity to v, always resets range to
absent, and clears max_intensity exactly when max_auto_scale is set;
symmetrically for set_max_intensity; passing AUTO sets the auto flag and
clears that bound. -/
theorem set_intensity_effects (m : Model) (v u : ℝ) :
    set_min_intensity m (IntensitySetting.value v) =
      { m with min_auto_scale := false, min_intensity := some v,
               max_intensity := if m.max_auto_scale then none else m.max_intensity,
               range := none } ∧
    set_max_intensity m (IntensitySetting.value u) =
      { m with max_auto_scale := false, max_intensity := some u,
               min_intensity := if m.min_auto_scale then none else m.min_intensity,
               range := none } ∧
    set_min_intensity m IntensitySetting.auto =
      { m with min_auto_scale := true, min_intensity := none,
               max_intensity := if m.max_auto_scale then none else m.max_intensity,
               range := none } ∧
    set_max_intensity m IntensitySetting.auto =
      { m with max_auto_scale := true, max_intensity := none,
               min_intensity := if m.min_auto_scale then none else m.min_intensity,
               range := none } := by
  obtain ⟨w, h, mina, maxa, mi, ma, rg, off, ag, sdr⟩ := m
  refine ⟨?_, ?_, ?_, ?_⟩ <;> cases mina <;> cases maxa <;> rfl

/-- Claim C8: a failure of sdr.read_samples propagates out of get_data
unhandled: get_data returns the IOError verbatim, not a (summary,
detail) pair, and performs no state transition and no hardware
reinitialization, unlike the configuration setters. -/
theorem get_data_propagates_read_failure (m : Model) (d : String) :
    get_data m (Except.error (PyError.ioError d)) =
      Except.error (PyError.ioError d) := rfl

/-- Claim C6: a successful set_nominal_center_freq writes
(f + offset_mhz) * 1e6 to the hardware, leaves the offset flag
unchanged, and a following get_nominal_center_freq reads back exactly f
(the hardware echoes the stored value). -/
theorem set_nominal_center_freq_roundtrip (m : Model) (f : ℚ) (d : String) :
    (set_nominal_center_freq m f false d).1 = none ∧
    (set_nominal_center_freq m f false d).2.sdr.center_freq =
      (f + get_offset_mhz m) * 1000000 ∧
    (set_nominal_center_freq m f false d).2.offsetted = m.offsetted ∧
    get_nominal_center_freq (set_nominal_center_freq m f false d).2 = f := by
  obtain ⟨w, h, mina, maxa, mi, ma, rg, off, ag, sdr⟩ := m
  refine ⟨rfl, ?_, ?_, ?_⟩ <;>
    simp only [set_nominal_center_freq, get_nominal_center_freq, get_offset_mhz,
      is_offsetted, Bool.false_eq_true, if_false, clear_intensity_fields] <;>
    cases mina <;> cases maxa <;> cases off <;>
    simp

/-- Claim C3, counterexample: set_sample_rate(0.3000001) does not fail
with a validation error: int(0.3000001 * 1e6) truncates to 300000, which
lies inside [225001, 300000], so the validation passes and the call
succeeds, storing 300000 Hz on the device (which previously held
2400000 Hz). -/
theorem set_sample_rate_boundary_counterexample :
    (set_sample_rate modelA (3000001/10000000) false "").1 = none ∧
    (set_sample_rate modelA (3000001/10000000) false "").2.sdr.sample_rate = 300000 ∧
    pyInt ((3000001/10000000 : ℚ) * 1000000) = 300000 := by
  refine ⟨?_, ?_, pyInt_0300⟩ <;>
    simp [set_sample_rate, pyInt_0300, validSampleRate]

/-- Claim C3 (amended): set_sample_rate converts its MHz argument r to
the integer Hz value int(r * 1e6) and returns the validation error pair,
without touching the hardware or any state, exactly when that integer
lies outside [225001, 300000] and outside [900001, 3200000].  In
particular both set_sample_rate(0.3) and set_sample_rate(0.3000001)
pass validation, because int(0.3000001 * 1e6) = 300000 is in range. -/
theorem set_sample_rate_validation (m : Model) (r : ℚ) (hw : Bool) (d : String) :
    ((set_sample_rate m r hw d).1 = some sampleRateError ↔
      validSampleRate (pyInt (r * 1000000)) = false) ∧
    (validSampleRate (pyInt (r * 1000000)) = false →
      set_sample_rate m r hw d = (some sampleRateError, m)) ∧
    (set_sample_rate m (3/10) false d).1 = none ∧
    (set_sample_rate m (3000001/10000000) false d).1 = none := by
  refine ⟨?_, ?_, ?_, ?_⟩
  · cases hv : validSampleRate (pyInt (r * 1000000)) <;> cases hw <;>
      simp [set_sample_rate, hv, sampleRateError, report_error]
  · intro hv
    simp [set_sample_rate, hv]
  · simp [set_sample_rate, pyInt_03, validSampleRate]
  · simp [set_sample_rate, pyInt_0300, validSampleRate]

/-- Claim C3 (amended), witness at the concrete state modelA with
r = 0.5 MHz (500000 Hz, invalid) and the hardware accepting. -/
theorem set_sample_rate_validation_witness :
    ((set_sample_rate modelA (1/2) false "").1 = some sampleRateError ↔
      validSampleRate (pyInt ((1/2 : ℚ) * 1000000)) = false) ∧
    (validSampleRate (pyInt ((1/2 : ℚ) * 1000000)) = false →
      set_sample_rate modelA (1/2) false "" = (some sampleRateError, modelA)) ∧
    (set_sample_rate modelA (3/10) false "").1 = none ∧
    (set_sample_rate modelA (3000001/10000000) false "").1 = none :=
  set_sample_rate_validation modelA (1/2) false ""

/-- Claim C4, counterexample: a successful set_sample_rate leaves the
scaling state untouched: starting from a state with both auto flags set
and observed bounds present, setting 2.4 MHz succeeds yet min_intensity
and range survive, contradicting the claim that every successful setter
clears them. -/
theorem set_sample_rate_keeps_scaling_counterexample :
    (set_sample_rate modelB (24/10) false "").1 = none ∧
    modelB.min_auto_scale = true ∧
    (set_sample_rate modelB (24/10) false "").2.min_intensity = some 5 ∧
    (set_sample_rate modelB (24/10) false "").2.range = some 2 := by
  refine ⟨?_, rfl, ?_, ?_⟩ <;>
    simp [set_sample_rate, pyInt_24, validSampleRate, modelB, modelA]

/-- Claim C4 (amended): after a successful set_nominal_center_freq or
set_gain (AUTO or manual), every intensity bound whose auto flag is set
becomes absent and range becomes absent; a set_sample_rate call that
passes validation and succeeds leaves min_intensity, max_intensity and
range unchanged, and a rejected one leaves the whole state unchanged. -/
theorem setters_clear_scaling (m : Model) (f db r : ℚ) (hw : Bool) (d : String) :
    ((m.min_auto_scale = true →
        (set_nominal_center_freq m f false d).2.min_intensity = none) ∧
     (m.max_auto_scale = true →
        (set_nominal_center_freq m f false d).2.max_intensity = none) ∧
     (set_nominal_center_freq m f false d).2.range = none) ∧
    ((m.min_auto_scale = true →
        (set_gain m GainSetting.auto false d).2.min_intensity = none) ∧
     (m.max_auto_scale = true →
        (set_gain m GainSetting.auto false d).2.max_intensity = none) ∧
     (set_gain m GainSetting.auto false d).2.range = none) ∧
    ((m.min_auto_scale = true →
        (set_gain m (GainSetting.manual db) false d).2.min_intensity = none) ∧
     (m.max_auto_scale = true →
        (set_gain m (GainSetting.manual db) false d).2.max_intensity = none) ∧
     (set_gain m (GainSetting.manual db) false d).2.range = none) ∧
    ((validSampleRate (pyInt (r * 1000000)) = true →
        (set_sample_rate m r false d).2.min_intensity = m.min_intensity ∧
        (set_sample_rate m r false d).2.max_intensity = m.max_intensity ∧
        (set_sample_rate m r false d).2.range = m.range) ∧
     (validSampleRate (pyInt (r * 1000000)) = false →
        (set_sample_rate m r hw d).2 = m)) := by
  obtain ⟨w, h, mina, maxa, mi, ma, rg, off, ag, sdr⟩ := m
  refine ⟨⟨?_, ?_, ?_⟩, ⟨?_, ?_, ?_⟩, ⟨?_, ?_, ?_⟩, ?_, ?_⟩ <;>
    first
    | (intro hv
       simp_all [set_nominal_center_freq, set_gain, set_sample_rate,
         clear_intensity_fields])
    | simp [set_nominal_center_freq, set_gain, set_sample_rate,
        clear_intensity_fields]

/-- Claim C4 (amended), witness: concrete state modelB with fixed
arguments; 2.4 MHz passes validation, 0.5 MHz does not. -/
theorem setters_clear_scaling_witness :
    validSampleRate (pyInt ((24/10 : ℚ) * 1000000)) = true ∧
    ((modelB.min_auto_scale = true →
        (set_nominal_center_freq modelB 100 false "").2.min_intensity = none) ∧
     (modelB.max_auto_scale = true →
        (set_nominal_center_freq modelB 100 false "").2.max_intensity = none) ∧
     (set_nominal_center_freq modelB 100 false "").2.range = none) ∧
    ((modelB.min_auto_scale = true →
        (set_gain modelB GainSetting.auto false "").2.min_intensity = none) ∧
     (modelB.max_auto_scale = true →
        (set_gain modelB GainSetting.auto false "").2.max_intensity = none) ∧
     (set_gain modelB GainSetting.auto false "").2.range = none) ∧
    ((modelB.min_auto_scale = true →
        (set_gain modelB (GainSetting.manual 5) false "").2.min_intensity = none) ∧
     (modelB.max_auto_scale = true →
        (set_gain modelB (GainSetting.manual 5) false "").2.max_intensity = none) ∧
     (set_gain modelB (GainSetting.manual 5) false "").2.range = none) ∧
    ((validSampleRate (pyInt ((24/10 : ℚ) * 1000000)) = true →
        (set_sample_rate modelB (24/10) false "").2.min_intensity = modelB.min_intensity ∧
        (set_sample_rate modelB (24/10) false "").2.max_intensity = modelB.max_intensity ∧
        (set_sample_rate modelB (24/10) false "").2.range = modelB.range) ∧
     (validSampleRate (pyInt ((24/10 : ℚ) * 1000000)) = false →
        (set_sample_rate modelB (24/10) false "").2 = modelB)) :=
  ⟨by rw [pyInt_24]; decide,
   setters_clear_scaling modelB 100 5 (24/10) false ""⟩

/-- Claim C5: set_offsetted preserves the nominal center frequency for
every boolean argument (the hardware echoes what is written and the set
succeeds), while the actual hardware frequency moves by the difference
of the offsets, i.e. by plus or minus 125 MHz on a real toggle. -/
theorem set_offsetted_preserves_nominal (m : Model) (b : Bool) (d : String) :
    (set_offsetted m b false d).1 = none ∧
    get_nominal_center_freq (set_offsetted m b false d).2 =
      get_nominal_center_freq m ∧
    (set_offsetted m b false d).2.sdr.center_freq =
      m.sdr.center_freq +
        ((if b then 125 else 0) - (if m.offsetted then 125 else 0)) * 1000000 := by
  obtain ⟨w, h, mina, maxa, mi, ma, rg, off, ag, sdr⟩ := m
  refine ⟨rfl, ?_, ?_⟩ <;>
    simp only [set_offsetted, set_nominal_center_freq, get_nominal_center_freq,
      get_offset_mhz, is_offsetted, Bool.false_eq_true, if_false,
      clear_intensity_fields] <;>
    cases b <;> cases off <;> cases mina <;> cases maxa <;>
    simp <;>
    field_simp <;>
    ring

/-- Claim C7: when the hardware call inside set_nominal_center_freq,
set_sample_rate (with a rate that passed validation) or set_gain raises
IOError, the setter returns a (summary, detail) pair whose summary names
the attempted action, after reinitializing the hardware capability to
the default state; on the success path each setter returns None. -/
theorem setter_error_reporting (m : Model) (f db r : ℚ) (d : String)
    (hr : validSampleRate (pyInt (r * 1000000)) = true) :
    set_nominal_center_freq m f true d =
      (some ("Can't set center frequency", d), _init_rtlsdr m) ∧
    set_sample_rate m r true d =
      (some ("Can't set sample rate", d), _init_rtlsdr m) ∧
    set_gain m (GainSetting.manual db) true d =
      (some ("Can't set gain", d), _init_rtlsdr m) ∧
    (set_nominal_center_freq m f false d).1 = none ∧
    (set_sample_rate m r false d).1 = none ∧
    (set_gain m (GainSetting.manual db) false d).1 = none ∧
    (set_gain m GainSetting.auto false d).1 = none := by
  refine ⟨rfl, ?_, ?_, rfl, ?_, rfl, rfl⟩
  · simp [set_sample_rate, hr, report_error]
  · simp [set_gain, report_error, init_rtlsdr_absorbs_clear]
  · simp [set_sample_rate, hr]

/-- Claim C7, witness at modelA with a 1 MHz rate (valid), 100 MHz
frequency and 5 dB gain. -/
theorem setter_error_reporting_witness :
    validSampleRate (pyInt ((1 : ℚ) * 1000000)) = true ∧
    (set_nominal_center_freq modelA 100 true "usb fail" =
      (some ("Can't set center frequency", "usb fail"), _init_rtlsdr modelA) ∧
    set_sample_rate modelA 1 true "usb fail" =
      (some ("Can't set sample rate", "usb fail"), _init_rtlsdr modelA) ∧
    set_gain modelA (GainSetting.manual 5) true "usb fail" =
      (some ("Can't set gain", "usb fail"), _init_rtlsdr modelA) ∧
    (set_nominal_center_freq modelA 100 false "usb fail").1 = none ∧
    (set_sample_rate modelA 1 false "usb fail").1 = none ∧
    (set_gain modelA (GainSetting.manual 5) false "usb fail").1 = none ∧
    (set_gain modelA GainSetting.auto false "usb fail").1 = none) :=
  ⟨validSampleRate_one,
   setter_error_reporting modelA 100 5 1 "usb fail" validSampleRate_one⟩

/-- Claim C10: set_gain with a numeric value records manual mode
(auto_gain false) and clears the scaling state before attempting the
fallible hardware call; when the call fails the pre-call state is not
restored, and the recovery reinitialization puts the model at its
defaults: offset disabled, 145 MHz nominal frequency, 2.4 MHz sample
rate, automatic gain; an auto-scaled bound that held a value before the
call is gone afterwards. -/
theorem set_gain_failure_reinit (m : Model) (db : ℚ) (d : String) (v : ℝ)
    (hmin : m.min_auto_scale = true) (hv : m.min_intensity = some v) :
    (set_gain m (GainSetting.manual db) true d).1 = some ("Can't set gain", d) ∧
    (set_gain m (GainSetting.manual db) true d).2 =
      _init_rtlsdr (_clear_intensity { m with auto_gain := false }) ∧
    (set_gain m (GainSetting.manual db) true d).2.offsetted = false ∧
    (set_gain m (GainSetting.manual db) true d).2.sdr.center_freq = 145 * 1000000 ∧
    get_nominal_center_freq (set_gain m (GainSetting.manual db) true d).2 = 145 ∧
    (set_gain m (GainSetting.manual db) true d).2.sdr.sample_rate = 2400000 ∧
    get_sample_rate (set_gain m (GainSetting.manual db) true d).2 = 24/10 ∧
    (set_gain m (GainSetting.manual db) true d).2.auto_gain = true ∧
    (set_gain m (GainSetting.manual db) true d).2.min_intensity = none := by
  obtain ⟨w, h, mina, maxa, mi, ma, rg, off, ag, sdr⟩ := m
  cases mina
  · exact absurd hmin (by simp)
  · cases maxa <;>
      refine ⟨rfl, rfl, rfl, rfl, ?_, rfl, ?_, rfl, rfl⟩ <;>
      simp [get_nominal_center_freq, get_sample_rate, get_offset_mhz,
        is_offsetted, set_gain, report_error, _init_rtlsdr, _clear_intensity] <;>
      norm_num

/-- Claim C10, witness at modelB (auto min bound holding 5 dB), gain
5 dB, failing hardware. -/
theorem set_gain_failure_reinit_witness :
    modelB.min_auto_scale = true ∧
    modelB.min_intensity = some 5 ∧
    ((set_gain modelB (GainSetting.manual 5) true "x").1 = some ("Can't set gain", "x") ∧
    (set_gain modelB (GainSetting.manual 5) true "x").2 =
      _init_rtlsdr (_clear_intensity { modelB with auto_gain := false }) ∧
    (set_gain modelB (GainSetting.manual 5) true "x").2.offsetted = false ∧
    (set_gain modelB (GainSetting.manual 5) true "x").2.sdr.center_freq = 145 * 1000000 ∧
    get_nominal_center_freq (set_gain modelB (GainSetting.manual 5) true "x").2 = 145 ∧
    (set_gain modelB (GainSetting.manual 5) true "x").2.sdr.sample_rate = 2400000 ∧
    get_sample_rate (set_gain modelB (GainSetting.manual 5) true "x").2 = 24/10 ∧
    (set_gain modelB (GainSetting.manual 5) true "x").2.auto_gain = true ∧
    (set_gain modelB (GainSetting.manual 5) true "x").2.min_intensity = none) :=
  ⟨rfl, rfl, set_gain_failure_reinit modelB 5 "x" 5 rfl rfl⟩

/-- The FFT preserves the length of the sample block. -/
theorem dft_length (x : List ℂ) : (dft x).length = x.length := by
  simp only [dft, List.length_map, List.length_range]

/-- numpy's fftshift is exactly the circular right shift by floor(N/2)
described by the specification: input position j lands on output
position (j + N/2) mod N. -/
theorem fftshift_eq_rollRight {α : Type*} (l : List α) :
    fftshift l = rollRight (l.length / 2) l := by
  have hlen1 : (fftshift l).length = l.length := by
    simp [fftshift]
  have hlen2 : (rollRight (l.length / 2) l).length = l.length := by
    simp [rollRight]
  apply List.ext_getElem (by rw [hlen1, hlen2])
  intro n h1 h2
  have hn : n < l.length := hlen1 ▸ h1
  have hN : 0 < l.length := Nat.lt_of_le_of_lt (Nat.zero_le _) hn
  have hmod : l.length / 2 % l.length = l.length / 2 :=
    Nat.mod_eq_of_lt (Nat.div_lt_self hN one_lt_two)
  have harith : (n + (l.length - l.length / 2)) % l.length
      = (n + l.length - l.length / 2 % l.length) % l.length := by
    rw [hmod]
    congr 1
    omega
  calc (fftshift l)[n]
      = l.get ⟨(n + (l.length - l.length / 2)) % l.length, Nat.mod_lt _ hN⟩ :=
        List.getElem_rotate l (l.length - l.length / 2) n h1
    _ = l.get ⟨(n + l.length - l.length / 2 % l.length) % l.length, Nat.mod_lt _ hN⟩ :=
        congrArg l.get (Fin.ext harith)
    _ = (rollRight (l.length / 2) l)[n] :=
        (List.getElem_ofFn
          (fun j : Fin l.length =>
            l.get ⟨(j.val + l.length - l.length / 2 % l.length) % l.length,
                   Nat.mod_lt _ (Nat.lt_of_le_of_lt (Nat.zero_le _) j.isLt)⟩)
          n h2).symm

/-- The frame computed by get_data equals the frame the specification
describes (the two differ only in how the circular shift is written). -/
theorem computeFrame_eq_specFrame (width : ℕ) (raw : List ℂ) :
    computeFrame width raw = specFrame width raw := by
  unfold computeFrame specFrame
  rw [fftshift_eq_rollRight]

/-- When the device delivered at least width + 2 samples, the frame has
exactly width elements. -/
theorem computeFrame_length (width : ℕ) (raw : List ℂ)
    (h : width + 2 ≤ raw.length) :
    (computeFrame width raw).length = width := by
  simp only [computeFrame, fftshift, List.length_map, List.length_rotate,
    List.length_dropLast, List.length_drop, dft_length, List.length_take]
  omega

/-- Inversion of a successful get_data call: the returned frame is the
computed frame, and the returned state went through the min update, the
max update, and the range computation from two present bounds. -/
theorem get_data_ok_inversion (m : Model) (raw : List ℂ) (frame : List ℝ) (m2 : Model)
    (hg : get_data m (Except.ok raw) = Except.ok (frame, m2)) :
    frame = computeFrame m.width raw ∧
    ∃ m1 m2', updateMin m (computeFrame m.width raw) = Except.ok m1 ∧
      updateMax m1 (computeFrame m.width raw) = Except.ok m2' ∧
      ∃ mx mn, m2'.max_intensity = some mx ∧ m2'.min_intensity = some mn ∧
        m2 = { m2' with range := some (mx - mn) } := by
  simp only [get_data] at hg
  split at hg
  · exact absurd hg (by simp)
  · rename_i m1 h1
    split at hg
    · exact absurd hg (by simp)
    · rename_i m2' h2
      split at hg
      · rename_i mx mn hmx hmn
        simp only [Except.ok.injEq, Prod.mk.injEq] at hg
        exact ⟨hg.1.symm, m1, m2', h1, h2, mx, mn, hmx, hmn, hg.2.symm⟩
      · exact absurd hg (by simp)

/-- Claim C1: the frame returned by get_data is obtained from the first
width + 2 samples the hardware delivered by taking the element-wise
absolute value of their discrete Fourier transform, dropping the first
and last element, circularly shifting by floor(N/2) so that the center
bin moves to the middle, and converting each magnitude to
20 * log10; the result has exactly width elements. -/
theorem get_data_spectral_pipeline (m : Model) (raw : List ℂ)
    (h : m.width + 2 ≤ raw.length) :
    computeFrame m.width raw = specFrame m.width raw ∧
    (computeFrame m.width raw).length = m.width ∧
    ∀ frame m2, get_data m (Except.ok raw) = Except.ok (frame, m2) →
      frame = computeFrame m.width raw := by
  exact ⟨computeFrame_eq_specFrame _ _, computeFrame_length _ _ h,
    fun frame m2 hg => (get_data_ok_inversion m raw frame m2 hg).1⟩

/-- Claim C1, witness at modelA (width 1) with a three-sample block. -/
theorem get_data_spectral_pipeline_witness :
    modelA.width + 2 ≤ ([0, 0, 0] : List ℂ).length ∧
    (computeFrame modelA.width [0, 0, 0] = specFrame modelA.width [0, 0, 0] ∧
     (computeFrame modelA.width [0, 0, 0]).length = modelA.width ∧
     ∀ frame m2, get_data modelA (Except.ok [0, 0, 0]) = Except.ok (frame, m2) →
       frame = computeFrame modelA.width [0, 0, 0]) :=
  ⟨by decide, get_data_spectral_pipeline modelA [0, 0, 0] (by decide)⟩

/-- Inversion of a successful updateMin: the max side is untouched, a
disabled auto flag leaves the state alone, an enabled one folds the
frame minimum into the bound. -/
theorem updateMin_ok (m : Model) (freqs : List ℝ) (m1 : Model)
    (h : updateMin m freqs = Except.ok m1) :
    m1.max_intensity = m.max_intensity ∧
    m1.max_auto_scale = m.max_auto_scale ∧
    m1.min_auto_scale = m.min_auto_scale ∧
    (m.min_auto_scale = false → m1 = m) ∧
    (m.min_auto_scale = true → ∃ mn, npMin freqs = some mn ∧
      m1.min_intensity = some (match m.min_intensity with
                               | none => mn
                               | some p => min mn p)) := by
  unfold updateMin at h
  split at h
  · rename_i hb
    split at h
    · exact absurd h (by simp)
    · rename_i mn hnp
      simp only [Except.ok.injEq] at h
      subst h
      refine ⟨rfl, rfl, rfl, fun hc => absurd hb (by simp [hc]), fun _ => ⟨mn, hnp, rfl⟩⟩
  · rename_i hb
    simp only [Except.ok.injEq] at h
    subst h
    refine ⟨rfl, rfl, rfl, fun _ => rfl, fun hc => absurd hc hb⟩

/-- Inversion of a successful updateMax: the min side is untouched, a
disabled auto flag leaves the state alone, an enabled one folds the
frame maximum into the bound. -/
theorem updateMax_ok (m : Model) (freqs : List ℝ) (m1 : Model)
    (h : updateMax m freqs = Except.ok m1) :
    m1.min_intensity = m.min_intensity ∧
    m1.min_auto_scale = m.min_auto_scale ∧
    (m.max_auto_scale = false → m1 = m) ∧
    (m.max_auto_scale = true → ∃ mx, npMax freqs = some mx ∧
      m1.max_intensity = some (match m.max_intensity with
                               | none => mx
                               | some p => max mx p)) := by
  unfold updateMax at h
  split at h
  · rename_i hb
    split at h
    · exact absurd h (by simp)
    · rename_i mx hnp
      simp only [Except.ok.injEq] at h
      subst h
      refine ⟨rfl, rfl, fun hc => absurd hb (by simp [hc]), fun _ => ⟨mx, hnp, rfl⟩⟩
  · rename_i hb
    simp only [Except.ok.injEq] at h
    subst h
    refine ⟨rfl, rfl, fun _ => rfl, fun hc => absurd hc hb⟩

/-- Claim C2: while min_auto_scale is set, a successful get_data call
sets min_intensity to the minimum of the frame minimum and the previous
bound (an absent previous bound acting as plus infinity), so the bound
never increases across acquisitions; symmetrically, the auto maximum
bound never decreases; and a bound whose auto flag is off is never
modified by get_data. -/
theorem get_data_auto_scale_update (m : Model) (read : Except PyError (List ℂ))
    (frame : List ℝ) (m2 : Model)
    (h : get_data m read = Except.ok (frame, m2)) :
    (m.min_auto_scale = true →
      ∃ mn, npMin frame = some mn ∧
        m2.min_intensity = some (match m.min_intensity with
                                 | none => mn
                                 | some p => min mn p) ∧
        ∀ p, m.min_intensity = some p → ∃ q, m2.min_intensity = some q ∧ q ≤ p) ∧
    (m.max_auto_scale = true →
      ∃ mx, npMax frame = some mx ∧
        m2.max_intensity = some (match m.max_intensity with
                                 | none => mx
                                 | some p => max mx p) ∧
        ∀ p, m.max_intensity = some p → ∃ q, m2.max_intensity = some q ∧ p ≤ q) ∧
    (m.min_auto_scale = false → m2.min_intensity = m.min_intensity) ∧
    (m.max_auto_scale = false → m2.max_intensity = m.max_intensity) := by
  cases read with
  | error e => exact absurd h (by simp [get_data])
  | ok raw =>
    obtain ⟨hframe, m1, m2', h1, h2, mx0, mn0, hmx0, hmn0, hm2⟩ :=
      get_data_ok_inversion m raw frame m2 h
    obtain ⟨hA1, hA2, hA3, hAfix, hAauto⟩ := updateMin_ok m _ m1 h1
    obtain ⟨hB1, hB2, hBfix, hBauto⟩ := updateMax_ok m1 _ m2' h2
    have hm2min : m2.min_intensity = m2'.min_intensity := by rw [hm2]
    have hm2max : m2.max_intensity = m2'.max_intensity := by rw [hm2]
    subst hframe
    refine ⟨?_, ?_, ?_, ?_⟩
    · intro hmin
      obtain ⟨mn, hnp, hmeq⟩ := hAauto hmin
      have hval : m2.min_intensity = some (match m.min_intensity with
                                           | none => mn
                                           | some p => min mn p) := by
        rw [hm2min, hB1, hmeq]
      refine ⟨mn, hnp, hval, ?_⟩
      intro p hp
      rw [hp] at hval
      exact ⟨min mn p, hval, min_le_right mn p⟩
    · intro hmax
      obtain ⟨mx, hnp, hmeq⟩ := hBauto (by rw [hA2, hmax])
      have hval : m2.max_intensity = some (match m.max_intensity with
                                           | none => mx
                                           | some p => max mx p) := by
        rw [hm2max, hmeq, hA1]
      refine ⟨mx, hnp, hval, ?_⟩
      intro p hp
      rw [hp] at hval
      exact ⟨max mx p, hval, le_max_right mx p⟩
    · intro hmin
      rw [hm2min, hB1, hAfix (by rw [hmin])]
    · intro hmax
      have hfix := hBfix (by rw [hA2, hmax])
      rw [hm2max, hfix, hA1]

/-- Claim C2, witness: the concrete acquisition of frameA1 from modelA. -/
theorem get_data_auto_scale_update_witness :
    get_data modelA (Except.ok [0, 0, 0]) = Except.ok (frameA1, modelA1) ∧
    ((modelA.min_auto_scale = true →
      ∃ mn, npMin frameA1 = some mn ∧
        modelA1.min_intensity = some (match modelA.min_intensity with
                                      | none => mn
                                      | some p => min mn p) ∧
        ∀ p, modelA.min_intensity = some p →
          ∃ q, modelA1.min_intensity = some q ∧ q ≤ p) ∧
    (modelA.max_auto_scale = true →
      ∃ mx, npMax frameA1 = some mx ∧
        modelA1.max_intensity = some (match modelA.max_intensity with
                                      | none => mx
                                      | some p => max mx p) ∧
        ∀ p, modelA.max_intensity = some p →
          ∃ q, modelA1.max_intensity = some q ∧ p ≤ q) ∧
    (modelA.min_auto_scale = false → modelA1.min_intensity = modelA.min_intensity) ∧
    (modelA.max_auto_scale = false → modelA1.max_intensity = modelA.max_intensity)) :=
  ⟨rfl, get_data_auto_scale_update modelA (Except.ok [0, 0, 0]) frameA1 modelA1 rfl⟩

end FreqShow
